import Mathlib

/-!
Shallow embedding of the conda-pypi-test repository's core pipeline
(src/generate.py, src/discover.py, src/build_cache.py) and proofs about it.

Remote I/O is modelled by passing the remote's responses in as data
(a resolver function, or a per-attempt outcome script); everything else
follows the Python source line by line.
-/

/-- normalize_name (generate.py lines 53-58): lowercase, underscores to
hyphens.  Python's lower() then replace of the single-character pattern is
exactly this character-wise substitution. -/
def normalize_name (name : String) : String :=
  String.mk ((name.data.map Char.toLower).map (fun c => if c = '_' then '-' else c))

/-- The grayskull mapping cache (generate.py `_MAPPING_CACHE`): a table from
normalized PyPI names to records that may carry a conda_name.  The inner
Python dict's `.get("conda_name", normalized)` default is modelled by the
`Option String` value. -/
def Mapping : Type := List (String × Option String)

/-- map_package_name (generate.py lines 61-72). -/
def map_package_name (m : Mapping) (pypi_name : String) : String :=
  let normalized := normalize_name pypi_name
  match (List.lookup normalized m) with
  | some rec₀ => normalize_name (rec₀.getD normalized)
  | none => normalized

/-- Character class of the regex ^([a-zA-Z0-9._-]+) in map_dependency_name. -/
def isNameChar (c : Char) : Bool :=
  (c.isAlpha || c.isDigit) || (c = '.' || c = '_' || c = '-')

/-- map_dependency_name (generate.py lines 75-86).  The regex is anchored at
the start, so the matched token is the leading run of name characters and
Python's `replace(pypi_name, conda_name, 1)` rewrites exactly that leading
occurrence. -/
def map_dependency_name (m : Mapping) (pypi_dep : String) : String :=
  let tok := pypi_dep.data.takeWhile isNameChar
  if tok.isEmpty then pypi_dep
  else
    let pypi_name := String.mk tok
    let conda_name := map_package_name m pypi_name
    conda_name ++ String.mk (pypi_dep.data.drop tok.length)

/-- Python's `sub in s` substring test on character lists. -/
def containsSeq (needle hay : List Char) : Bool :=
  hay.tails.any (fun t => needle.isPrefixOf t)

/-- Python str.strip(): drop whitespace from both ends. -/
def trimChars (cs : List Char) : List Char :=
  ((cs.dropWhile Char.isWhitespace).reverse.dropWhile Char.isWhitespace).reverse

/-- Python `dep.split(";")[0].strip()`: text before the first semicolon,
whitespace-trimmed. -/
def headBeforeSemi (dep : String) : String :=
  String.mk (trimChars (dep.data.takeWhile (fun c => c ≠ ';')))

/-- One element of a PyPI `urls` list (the fields generate.py reads;
`sha256` models `digests.get("sha256", "")`, `size` models `.get("size", 0)`). -/
structure UrlEntry where
  packagetype : String
  filename : String
  url : String
  size : Nat
  sha256 : String
deriving DecidableEq, Repr

/-- The `info` section of a PyPI JSON document (the fields generate.py reads;
`requires_dist` models `.get("requires_dist") or []`). -/
structure PypiInfo where
  name : String
  version : String
  requires_dist : List String
  requires_python : Option String
deriving DecidableEq, Repr

/-- A parsed PyPI JSON document with the fields generate.py reads. -/
structure PypiData where
  info : PypiInfo
  urls : List UrlEntry
deriving DecidableEq, Repr

/-- A packages.whl entry exactly as built by the dict literal at
generate.py lines 139-151.  Note the source builds no "fn" field: the
`filename` extracted at line 136 is never stored. -/
structure WhlEntry where
  url : String
  record_version : Nat
  name : String
  version : String
  build : String
  build_number : Nat
  depends : List String
  sha256 : String
  size : Nat
  subdir : String
  noarch : String
deriving DecidableEq, Repr

/-- JSON-ish values appearing in a packages.whl entry. -/
inductive JVal where
  | s (v : String)
  | n (v : Nat)
  | arr (v : List String)
deriving DecidableEq, Repr

/-- The entry as the JSON object generate.py serializes: the keys in the
order of the dict literal at lines 139-151. -/
def entryFields (e : WhlEntry) : List (String × JVal) :=
  [("url", .s e.url),
   ("record_version", .n e.record_version),
   ("name", .s e.name),
   ("version", .s e.version),
   ("build", .s e.build),
   ("build_number", .n e.build_number),
   ("depends", .arr e.depends),
   ("sha256", .s e.sha256),
   ("size", .n e.size),
   ("subdir", .s e.subdir),
   ("noarch", .s e.noarch)]

/-- The synthetic "python {requires_python}" dependency appended at
generate.py lines 131-133 (`if python_requires:` is Python truthiness, so
both absence and the empty string append nothing). -/
def pythonDeps (requires_python : Option String) : List String :=
  match requires_python with
  | some p => if p = "" then [] else ["python " ++ p]
  | none => []

/-- pypi_to_repodata_whl_entry (generate.py lines 89-153). -/
def pypi_to_repodata_whl_entry (m : Mapping) (pypi_data : PypiData) :
    Option WhlEntry :=
  match pypi_data.urls.find? (fun u => u.packagetype = "bdist_wheel") with
  | none => none
  | some wheel_url =>
    let conda_name := map_package_name m pypi_data.info.name
    let depends_list :=
      (pypi_data.info.requires_dist.filter
        (fun dep => !(containsSeq "extra".data dep.data))).map
        (fun dep => map_dependency_name m (headBeforeSemi dep))
    some
      { url := wheel_url.url
        record_version := 3
        name := conda_name
        version := pypi_data.info.version
        build := "py3_none_any_0"
        build_number := 0
        depends := depends_list ++ pythonDeps pypi_data.info.requires_python
        sha256 := wheel_url.sha256
        size := wheel_url.size
        subdir := "noarch"
        noarch := "python" }

/-- The synthetic entry key built at generate.py line 324. -/
def entryKey (conda_name version : String) : String :=
  conda_name ++ "-" ++ version ++ "-py3_none_any_0"

/-- Outcome of one HTTP attempt against the PyPI JSON endpoint, as
observable inside get_repodata_entry's try block:
`success none` models a falsy parsed body (the `if not pypi_data` branch),
`success (some d)` a parsed document, `statusError c` a response whose
`raise_for_status` raises httpx.HTTPStatusError with status code c, and
`otherError` every other exception (timeout, connection failure,
unparseable body). -/
inductive FetchOutcome where
  | success (data : Option PypiData)
  | statusError (code : Nat)
  | otherError
deriving DecidableEq, Repr

/-- The retry loop of get_repodata_entry (generate.py lines 173-202).
`script a` is the outcome the remote yields on attempt index `a`;
`remaining = max_retries - attempt` drives the countdown, so the retry
guard `attempt < max_retries - 1` is `remaining ≥ 2`.  Returns the entry
(None on failure), the backoff sleeps performed in order, and the number
of attempts made. -/
def fetchGo (m : Mapping) (script : Nat → FetchOutcome) :
    Nat → Nat → List Nat → Option WhlEntry × List Nat × Nat
  | attempt, 0, sleeps => (none, sleeps.reverse, attempt)
  | attempt, remaining + 1, sleeps =>
    match script attempt with
    | .success none => (none, sleeps.reverse, attempt + 1)
    | .success (some d) => (pypi_to_repodata_whl_entry m d, sleeps.reverse, attempt + 1)
    | .statusError _ =>
      if remaining ≥ 1 then
        fetchGo m script (attempt + 1) remaining ((2 ^ attempt) :: sleeps)
      else (none, sleeps.reverse, attempt + 1)
    | .otherError => (none, sleeps.reverse, attempt + 1)

/-- get_repodata_entry (generate.py lines 156-202) with its default
max_retries = 3, run against an attempt-outcome script. -/
def get_repodata_entry (m : Mapping) (script : Nat → FetchOutcome)
    (max_retries : Nat := 3) : Option WhlEntry × List Nat × Nat :=
  fetchGo m script 0 max_retries []

/-- Python dict assignment `pkg_whls[key] = entry` on an association list:
replace in place when the key is present (keeping its position), else
append.  No error is raised on a duplicate key. -/
def dictInsert (l : List (String × WhlEntry)) (k : String) (v : WhlEntry) :
    List (String × WhlEntry) :=
  if l.any (fun p => p.1 = k) then
    l.map (fun p => if p.1 = k then (k, v) else p)
  else l ++ [(k, v)]

/-- Python's `sorted(pkg_whls.items())` (generate.py line 356).  Dict keys
are unique, so sorting the pairs by key alone is the tuple sort the source
performs; Lean's String order is the same code-point lexicographic order
Python uses. -/
def sortByKey (l : List (String × WhlEntry)) : List (String × WhlEntry) :=
  l.insertionSort (fun a b => a.1 ≤ b.1)

/-- The repodata document built at generate.py lines 349-357. -/
structure RepodataDoc where
  info_subdir : String
  packages : List (String × WhlEntry)
  packages_conda : List (String × WhlEntry)
  removed : List String
  repodata_version : Nat
  packages_whl : List (String × WhlEntry)
deriving DecidableEq, Repr

/-- One iteration of the result-collection loop of generate_repodata
(lines 309-335): a resolved entry is stored under its synthetic key
(silently overwriting on collision), a failed package is appended to
failed_packages as "name==version". -/
def collectStep (acc : List (String × WhlEntry) × List String)
    (r : (String × String) × Option WhlEntry) :
    List (String × WhlEntry) × List String :=
  match r.2 with
  | some entry => (dictInsert acc.1 (entryKey entry.name r.1.2) entry, acc.2)
  | none => (acc.1, acc.2 ++ [r.1.1 ++ "==" ++ r.1.2])

/-- The whole result-collection loop, starting from empty pkg_whls and
failed_packages. -/
def collectResults (results : List ((String × String) × Option WhlEntry)) :
    List (String × WhlEntry) × List String :=
  results.foldl collectStep ([], [])

/-- generate_repodata (generate.py lines 240-385), with the remote modelled
by `resolve : name → version → Option entry` (get_repodata_entry's result
for that request).  `.error ()` models the `raise SystemExit(1)` at line
346, taken before any repodata structure is built; `.ok` carries the
document of lines 349-357. -/
def generate_repodata (resolve : String → String → Option WhlEntry)
    (packages : List (String × String)) : Except Unit RepodataDoc :=
  let results := packages.map (fun p => (p, resolve p.1 p.2))
  let collected := collectResults results
  if collected.2.isEmpty then
    .ok
      { info_subdir := "noarch"
        packages := []
        packages_conda := []
        removed := []
        repodata_version := 1
        packages_whl := sortByKey collected.1 }
  else .error ()

/-- Digits of a version-group to a number (regex capture `\d+` to int). -/
def digitsToNat (ds : List Char) : Nat :=
  ds.foldl (fun acc c => acc * 10 + (c.toNat - '0'.toNat)) 0

/-- The repetition `(?:\.\d+)*` after the first group of the regex in
_version_sort_key (discover.py lines 57-62): having read one group, keep
consuming ".digits" groups.  Fueled by the character count, which always
suffices since every step consumes at least two characters. -/
def moreGroups : Nat → List Char → List Nat
  | 0, _ => []
  | fuel + 1, cs =>
    match cs with
    | '.' :: rest =>
      let ds := rest.takeWhile Char.isDigit
      if ds.isEmpty then []
      else digitsToNat ds :: moreGroups fuel (rest.dropWhile Char.isDigit)
    | _ => []

/-- _version_sort_key (discover.py lines 57-62): the tuple of integers of
the leading `\d+(\.\d+)*` match, or (0,) when the string has no leading
digit.  Non-numeric content after the numeric run never enters the key. -/
def versionSortKey (v : String) : List Nat :=
  let cs := v.data
  let ds := cs.takeWhile Char.isDigit
  if ds.isEmpty then [0]
  else digitsToNat ds :: moreGroups cs.length (cs.dropWhile Char.isDigit)

/-- Python tuple `<` on integer tuples: lexicographic, a strict prefix is
smaller. -/
def tupLt : List Nat → List Nat → Bool
  | [], [] => false
  | [], _ :: _ => true
  | _ :: _, [] => false
  | a :: as₀, b :: bs₀ =>
    if a < b then true else if b < a then false else tupLt as₀ bs₀

/-- Python `max(versions, key=_version_sort_key)` (discover.py line 104):
scan keeping the current best, replacing it only on a strictly greater
key, so the first maximal element wins. -/
def bestVersion (versions : List String) : Option String :=
  match versions with
  | [] => none
  | v :: rest =>
    some (rest.foldl
      (fun best y => if tupLt (versionSortKey best) (versionSortKey y) then y else best) v)

/-- State of the concurrency coordinator: how many requests are still
queued, how many resolutions are active (semaphore holders), how many have
completed.  Models the semaphore-gated dispatch of
generate.py fetch_with_semaphore (lines 296-306) and
build_cache.py worker (lines 107-135). -/
structure CoordState where
  queued : Nat
  active : Nat
  done : Nat
deriving DecidableEq, Repr

/-- One scheduler step under concurrency limit K: a queued resolution may
start only when fewer than K are active (asyncio.Semaphore(K) acquire);
an active resolution may finish, releasing its permit. -/
inductive CoordStep (K : Nat) : CoordState → CoordState → Prop
  | start (q a d : Nat) (hK : a < K) :
      CoordStep K ⟨q + 1, a, d⟩ ⟨q, a + 1, d⟩
  | finish (q a d : Nat) :
      CoordStep K ⟨q, a + 1, d⟩ ⟨q, a, d + 1⟩

/-- Reachability of coordinator states from the run's initial state
(all N requests queued, nothing active or done). -/
def CoordReachable (K N : Nat) (s : CoordState) : Prop :=
  Relation.ReflTransGen (CoordStep K) ⟨N, 0, 0⟩ s

/-- The sort relation used on packages.whl items: compare by key. -/
def keyLe (a b : String × WhlEntry) : Prop := a.1 ≤ b.1

instance : DecidableRel keyLe := fun a b => inferInstanceAs (Decidable (a.1 ≤ b.1))

instance : IsTotal (String × WhlEntry) keyLe := ⟨fun a b => le_total a.1 b.1⟩

instance : IsTrans (String × WhlEntry) keyLe := ⟨fun _ _ _ h₁ h₂ => le_trans h₁ h₂⟩

/-! ### Helper lemmas -/

theorem tupLt_irrefl (a : List Nat) : tupLt a a = false := by
  induction a with
  | nil => rfl
  | cons x as ih => simp [tupLt, ih]

theorem tupLt_asymm {a b : List Nat} (h : tupLt a b = true) : tupLt b a = false := by
  induction a generalizing b with
  | nil =>
    cases b with
    | nil => simp [tupLt] at h
    | cons y bs => simp [tupLt]
  | cons x as ih =>
    cases b with
    | nil => simp [tupLt] at h
    | cons y bs =>
      simp only [tupLt] at h ⊢
      split_ifs at h ⊢ with h₁ h₂ h₃ <;> first | rfl | omega | exact ih h

theorem tupLt_false_trans {a b c : List Nat} (hab : tupLt a b = false)
    (hbc : tupLt b c = false) : tupLt a c = false := by
  induction a generalizing b c with
  | nil =>
    cases b with
    | nil =>
      cases c with
      | nil => rfl
      | cons z cs => simp [tupLt] at hbc
    | cons y bs => simp [tupLt] at hab
  | cons x as ih =>
    cases b with
    | nil =>
      cases c with
      | nil => simp [tupLt]
      | cons z cs => simp [tupLt] at hbc
    | cons y bs =>
      cases c with
      | nil => simp [tupLt]
      | cons z cs =>
        simp only [tupLt] at hab hbc ⊢
        split_ifs at hab hbc ⊢ with h₁ h₂ h₃ h₄ h₅ h₆ <;>
          first | rfl | omega | exact ih hab hbc

/-- The scan of `max(_, key=versionSortKey)` keeps an element whose key is
maximal among everything seen so far. -/
theorem best_foldl_max (l : List String) (b : String) :
    ∀ u ∈ b :: l,
      tupLt
        (versionSortKey (l.foldl
          (fun best y =>
            if tupLt (versionSortKey best) (versionSortKey y) then y else best) b))
        (versionSortKey u) = false := by
  induction l generalizing b with
  | nil =>
    intro u hu
    rcases List.mem_singleton.mp hu with rfl
    exact tupLt_irrefl _
  | cons y l ih =>
    intro u hu
    rw [List.foldl_cons]
    have hstep :
        tupLt
          (versionSortKey (if tupLt (versionSortKey b) (versionSortKey y) then y else b))
          (versionSortKey b) = false ∧
        tupLt
          (versionSortKey (if tupLt (versionSortKey b) (versionSortKey y) then y else b))
          (versionSortKey y) = false := by
      by_cases hby : tupLt (versionSortKey b) (versionSortKey y) = true
      · simp only [hby, if_true]
        exact ⟨tupLt_asymm hby, tupLt_irrefl _⟩
      · simp only [Bool.not_eq_true] at hby
        simp only [hby, if_false]
        exact ⟨tupLt_irrefl _, hby⟩
    have hrec := ih (if tupLt (versionSortKey b) (versionSortKey y) then y else b)
    have hself := hrec _ (List.mem_cons_self _ _)
    rcases List.mem_cons.mp hu with rfl | hu'
    · exact tupLt_false_trans hself hstep.1
    · rcases List.mem_cons.mp hu' with rfl | hu''
      · exact tupLt_false_trans hself hstep.2
      · exact hrec u (List.mem_cons_of_mem _ hu'')



/-- The "name==version" tag recorded for a failed request, none for a
resolved one. -/
def failTag (r : (String × String) × Option WhlEntry) : Option String :=
  match r.2 with
  | some _ => none
  | none => some (r.1.1 ++ "==" ++ r.1.2)

/-- The synthetic keys under which the loop stores resolved entries. -/
def keysOfResults (results : List ((String × String) × Option WhlEntry)) :
    List String :=
  results.filterMap (fun r => r.2.map (fun e => entryKey e.name r.1.2))

theorem foldl_collectStep_snd (results : List ((String × String) × Option WhlEntry)) :
    ∀ w f, (results.foldl collectStep (w, f)).2 = f ++ results.filterMap failTag := by
  induction results with
  | nil => intro w f; simp
  | cons r rest ih =>
    intro w f
    rw [List.foldl_cons]
    cases h : r.2 with
    | some e =>
      simp only [collectStep, h, List.filterMap_cons]
      rw [ih]
      simp [failTag, h]
    | none =>
      simp only [collectStep, h, List.filterMap_cons]
      rw [ih]
      simp [failTag, h]

theorem dictInsert_of_not_mem (l : List (String × WhlEntry)) (k : String)
    (v : WhlEntry) (h : k ∉ l.map Prod.fst) : dictInsert l k v = l ++ [(k, v)] := by
  have hany : l.any (fun p => p.1 = k) = false := by
    simp only [List.any_eq_false, decide_eq_true_eq]
    intro p hp hpk
    exact h (List.mem_map.mpr ⟨p, hp, hpk⟩)
  simp [dictInsert, hany]

theorem foldl_collectStep_fst_length
    (results : List ((String × String) × Option WhlEntry)) :
    ∀ w f, (∀ r ∈ results, r.2.isSome = true) → (keysOfResults results).Nodup →
      (∀ k ∈ keysOfResults results, k ∉ w.map Prod.fst) →
      ((results.foldl collectStep (w, f)).1).length = w.length + results.length := by
  induction results with
  | nil => intro w f _ _ _; simp
  | cons r rest ih =>
    intro w f hsome hnd hdisj
    obtain ⟨e, he⟩ := Option.isSome_iff_exists.mp (hsome r (List.mem_cons_self r rest))
    have hkeys : keysOfResults (r :: rest) =
        entryKey e.name r.1.2 :: keysOfResults rest := by
      simp [keysOfResults, List.filterMap_cons, he]
    rw [hkeys] at hnd hdisj
    have hknotw : entryKey e.name r.1.2 ∉ w.map Prod.fst :=
      hdisj _ (List.mem_cons_self _ _)
    rw [List.foldl_cons]
    simp only [collectStep, he]
    rw [dictInsert_of_not_mem _ _ _ hknotw]
    rw [ih (w ++ [(entryKey e.name r.1.2, e)]) f
      (fun r' hr' => hsome r' (List.mem_cons_of_mem _ hr'))
      hnd.of_cons
      (by
        intro k hk
        simp only [List.map_append, List.map_cons, List.map_nil, List.mem_append,
          List.mem_singleton]
        rintro (hkw | rfl)
        · exact hdisj k (List.mem_cons_of_mem _ hk) hkw
        · exact (List.nodup_cons.mp hnd).1 hk)]
    simp only [List.length_append, List.length_cons, List.length_nil]
    omega

theorem fetchGo_attempts_le (m : Mapping) (script : Nat → FetchOutcome) :
    ∀ remaining attempt sleeps,
      (fetchGo m script attempt remaining sleeps).2.2 ≤ attempt + remaining := by
  intro remaining
  induction remaining with
  | zero => intro attempt sleeps; simp [fetchGo]
  | succ r ih =>
    intro attempt sleeps
    simp only [fetchGo]
    cases h : script attempt with
    | success d =>
      cases d with
      | none => simp
      | some d₀ => simp
    | statusError c =>
      by_cases hr : r ≥ 1
      · simp only [hr, if_true]
        have := ih (attempt + 1) ((2 ^ attempt) :: sleeps)
        omega
      · simp only [hr, if_false]
        simp
    | otherError => simp

theorem failTag_eq_none (r : (String × String) × Option WhlEntry) :
    failTag r = none ↔ r.2.isSome = true := by
  obtain ⟨p, o⟩ := r
  cases o <;> simp [failTag]

/-- The failed_packages list is empty exactly when every request resolved. -/
theorem collect_failed_empty_iff (resolve : String → String → Option WhlEntry)
    (packages : List (String × String)) :
    (collectResults (packages.map (fun p => (p, resolve p.1 p.2)))).2.isEmpty = true ↔
      ∀ p ∈ packages, (resolve p.1 p.2).isSome = true := by
  unfold collectResults
  rw [foldl_collectStep_snd]
  rw [List.nil_append, List.isEmpty_iff, List.filterMap_eq_nil_iff]
  constructor
  · intro h p hp
    have := h _ (List.mem_map_of_mem _ hp)
    exact (failTag_eq_none _).mp this
  · intro h r hr
    obtain ⟨p, hp, rfl⟩ := List.mem_map.mp hr
    exact (failTag_eq_none _).mpr (h p hp)

/-- C1: the repository document is produced exactly when every requested
(name, version) pair resolved; any failed resolution aborts the run with a
nonzero exit before the repodata structure is built, so no partial index is
ever emitted. -/
theorem C1_fails_closed (resolve : String → String → Option WhlEntry)
    (packages : List (String × String)) :
    (∃ doc, generate_repodata resolve packages = Except.ok doc) ↔
      ∀ p ∈ packages, (resolve p.1 p.2).isSome = true := by
  by_cases h :
      (collectResults (packages.map (fun p => (p, resolve p.1 p.2)))).2.isEmpty = true
  · rw [← collect_failed_empty_iff resolve packages]
    simp only [generate_repodata, h, if_true]
    exact ⟨fun _ => trivial, fun _ => ⟨_, rfl⟩⟩
  · have hb :
        (collectResults (packages.map (fun p => (p, resolve p.1 p.2)))).2.isEmpty = false :=
      Bool.eq_false_iff.mpr h
    rw [← collect_failed_empty_iff resolve packages]
    simp [generate_repodata, hb]

/-- C2 (amended): on an entry-key collision the build does NOT fail; the
later package's entry silently overwrites the earlier one (last-write-wins)
and the run succeeds with a single entry under the shared key. -/
theorem C2_last_write_wins (resolve : String → String → Option WhlEntry)
    (n₁ v₁ n₂ v₂ : String) (e₁ e₂ : WhlEntry)
    (h₁ : resolve n₁ v₁ = some e₁) (h₂ : resolve n₂ v₂ = some e₂)
    (hk : entryKey e₁.name v₁ = entryKey e₂.name v₂) :
    generate_repodata resolve [(n₁, v₁), (n₂, v₂)] =
      Except.ok ⟨"noarch", [], [], [], 1, [(entryKey e₂.name v₂, e₂)]⟩ := by
  simp only [generate_repodata, collectResults, List.map, List.foldl, collectStep,
    h₁, h₂]
  rw [hk]
  simp [dictInsert, sortByKey, List.insertionSort, List.orderedInsert]

/-- A resolver on which two distinct requests collapse to the same entry
key: the underscore and hyphen spellings of one project at one version. -/
def c2resolve : String → String → Option WhlEntry := fun n v =>
  if n = "foo_a" ∧ v = "1.0" then
    some ⟨"u1", 3, "foo-a", "1.0", "py3_none_any_0", 0, [], "s1", 1, "noarch", "python"⟩
  else if n = "foo-a" ∧ v = "1.0" then
    some ⟨"u2", 3, "foo-a", "1.0", "py3_none_any_0", 0, [], "s2", 2, "noarch", "python"⟩
  else none

/-- C2 counterexample: two distinct resolved packages collapse to the key
"foo-a-1.0-py3_none_any_0", yet the build does not abort with any error:
it succeeds, keeping only the second entry.  There is no DuplicateKeyError
anywhere in the source. -/
theorem C2_counterexample :
    generate_repodata c2resolve [("foo_a", "1.0"), ("foo-a", "1.0")] =
      Except.ok ⟨"noarch", [], [], [], 1, [("foo-a-1.0-py3_none_any_0",
        ⟨"u2", 3, "foo-a", "1.0", "py3_none_any_0", 0, [], "s2", 2, "noarch", "python"⟩)]⟩ := by
  rfl

/-- C7 (amended): whenever the build succeeds, packages.whl is sorted by
entry key in ascending lexical order; and when all requests resolve Found
AND their synthetic entry keys are pairwise distinct, the document holds
exactly one entry per request.  (Exactly-one-per-request fails without the
distinctness proviso: colliding keys are silently merged, see the
counterexample.) -/
theorem C7_sorted_and_counted :
    (∀ (resolve : String → String → Option WhlEntry)
       (packages : List (String × String)) (doc : RepodataDoc),
       generate_repodata resolve packages = Except.ok doc →
       List.Sorted keyLe doc.packages_whl) ∧
    (∀ (resolve : String → String → Option WhlEntry)
       (packages : List (String × String)),
       (∀ p ∈ packages, (resolve p.1 p.2).isSome = true) →
       (keysOfResults (packages.map (fun p => (p, resolve p.1 p.2)))).Nodup →
       generate_repodata resolve packages =
         Except.ok ⟨"noarch", [], [], [], 1,
           sortByKey (collectResults (packages.map (fun p => (p, resolve p.1 p.2)))).1⟩ ∧
       (sortByKey (collectResults (packages.map (fun p => (p, resolve p.1 p.2)))).1).length =
         packages.length) := by
  constructor
  · intro resolve packages doc hdoc
    by_cases h :
        (collectResults (packages.map (fun p => (p, resolve p.1 p.2)))).2.isEmpty = true
    · simp only [generate_repodata, h, if_true, Except.ok.injEq] at hdoc
      rw [← hdoc]
      exact List.sorted_insertionSort keyLe _
    · have hb := Bool.eq_false_iff.mpr h
      simp [generate_repodata, hb] at hdoc
  · intro resolve packages hall hnd
    have hempty := (collect_failed_empty_iff resolve packages).mpr hall
    refine ⟨?_, ?_⟩
    · simp only [generate_repodata, hempty, if_true]
    show (sortByKey (collectResults (packages.map (fun p => (p, resolve p.1 p.2)))).1).length
      = packages.length
    rw [sortByKey, List.length_insertionSort]
    unfold collectResults
    rw [foldl_collectStep_fst_length _ [] []
      (by
        intro r hr
        obtain ⟨p, hp, rfl⟩ := List.mem_map.mp hr
        exact hall p hp)
      hnd
      (by intro k _ hk; simp at hk)]
    simp

/-- A resolver sending two distinct requests ("Foo" and "foo", same
version) to entries with the same mapped name, hence the same entry key. -/
def c7resolve : String → String → Option WhlEntry := fun n v =>
  if n = "Foo" ∧ v = "1.0" then
    some ⟨"u1", 3, "foo", "1.0", "py3_none_any_0", 0, [], "s1", 1, "noarch", "python"⟩
  else if n = "foo" ∧ v = "1.0" then
    some ⟨"u2", 3, "foo", "1.0", "py3_none_any_0", 0, [], "s2", 2, "noarch", "python"⟩
  else none

/-- C7 counterexample: both of the two distinct requests resolve Found, yet
the built document contains one entry, not one per request: colliding keys
are merged by overwrite, so the claim's "exactly one entry per request"
fails as stated. -/
theorem C7_counterexample :
    (c7resolve "Foo" "1.0").isSome = true ∧ (c7resolve "foo" "1.0").isSome = true ∧
    ("Foo", "1.0") ≠ (("foo", "1.0") : String × String) ∧
    generate_repodata c7resolve [("Foo", "1.0"), ("foo", "1.0")] =
      Except.ok ⟨"noarch", [], [], [], 1, [("foo-1.0-py3_none_any_0",
        ⟨"u2", 3, "foo", "1.0", "py3_none_any_0", 0, [], "s2", 2, "noarch", "python"⟩)]⟩ ∧
    [("foo-1.0-py3_none_any_0",
      (⟨"u2", 3, "foo", "1.0", "py3_none_any_0", 0, [], "s2", 2, "noarch", "python"⟩ : WhlEntry))].length ≠
      [("Foo", "1.0"), ("foo", "1.0")].length := by
  refine ⟨rfl, rfl, by decide, rfl, by decide⟩

/-- The PyPI response for requests 2.32.5 used by the repository's own unit
test test_pypi_to_repodata_whl_entry (test_generate.py lines 14-50). -/
def requestsData : PypiData :=
  ⟨⟨"requests", "2.32.5",
    ["charset-normalizer <4,>=2", "idna <4,>=2.5", "urllib3 <3,>=1.21.1",
     "certifi >=2017.4.17"],
    some ">=3.8"⟩,
   [⟨"bdist_wheel", "requests-2.32.5-py3-none-any.whl",
     "https://files.pythonhosted.org/packages/.../requests-2.32.5-py3-none-any.whl",
     64928, "abc123"⟩]⟩

/-- C3: the converter emits exactly the keys url, record_version, name,
version, build, build_number, depends, sha256, size, subdir, noarch — and
no "fn" key, although the wheel filename is extracted (generate.py line
136) and the repository's own test asserts entry["fn"] (test_generate.py
line 44).  The claim (and the test) require "fn"; the code omits it. -/
theorem C3_fn_missing :
    (pypi_to_repodata_whl_entry [] requestsData).map
        (fun e => (entryFields e).map Prod.fst) =
      some ["url", "record_version", "name", "version", "build", "build_number",
        "depends", "sha256", "size", "subdir", "noarch"] ∧
    "fn" ∉ ["url", "record_version", "name", "version", "build", "build_number",
        "depends", "sha256", "size", "subdir", "noarch"] := by
  exact ⟨rfl, by decide⟩

/-- C4 (amended): every httpx.HTTPStatusError — regardless of status code,
404 not-found included — consumes retry budget with a backoff sleep, while
every other failure (timeout, connection error, unparseable body) and a
falsy parsed body short-circuits to a None outcome on the first attempt
with no retry and no sleep. -/
theorem C4_retry_classes (m : Mapping) (s₁ s₂ : Nat → FetchOutcome) (c : Nat)
    (d : PypiData) (h₁ : s₁ 0 = FetchOutcome.otherError)
    (h₂ : s₂ 0 = FetchOutcome.statusError c)
    (h₃ : s₂ 1 = FetchOutcome.success (some d)) :
    get_repodata_entry m s₁ 3 = (none, [], 1) ∧
    get_repodata_entry m s₂ 3 = (pypi_to_repodata_whl_entry m d, [1], 2) := by
  constructor
  · simp [get_repodata_entry, fetchGo, h₁]
  · simp [get_repodata_entry, fetchGo, h₂, h₃]

/-- A remote that answers 404 on the first attempt and then the requests
2.32.5 document. -/
def c4script : Nat → FetchOutcome := fun n =>
  if n = 0 then FetchOutcome.statusError 404 else FetchOutcome.success (some requestsData)

/-- C4 counterexample: a not-found (HTTP 404) failure does NOT short-circuit:
the resolver sleeps 1s, retries, and succeeds on attempt 2 — the claim says
a not-found outcome is reached immediately on the first attempt with no
retry or backoff sleep. -/
theorem C4_counterexample :
    c4script 0 = FetchOutcome.statusError 404 ∧
    (get_repodata_entry [] c4script 3).2 = ([1], 2) ∧
    (get_repodata_entry [] c4script 3).1.isSome = true := by
  exact ⟨rfl, rfl, rfl⟩

/-- An HTTP status code the spec calls transient/retryable. -/
def retryableStatus (c : Nat) : Prop := c = 429 ∨ (500 ≤ c ∧ c ≤ 599)

/-- C5 (amended): never more than 3 attempts; a request failing on
attempts 1 and 2 with transient HTTP STATUS errors (429/5xx) then
succeeding makes exactly 3 strictly sequential attempts, sleeping 1s
after the first failure and 2s after the second, and returns the resolved
entry (total backoff 1+2 = 3s); but a timeout-class transient failure is
NOT retried: it yields None after a single attempt with no backoff, so
the fail-twice-then-Found scenario holds only for the status-error class
(see the counterexample for the timeout case). -/
theorem C5_backoff (m : Mapping) (script : Nat → FetchOutcome) (c₁ c₂ : Nat)
    (d : PypiData) (e : WhlEntry)
    (_hr₁ : retryableStatus c₁) (_hr₂ : retryableStatus c₂)
    (h₀ : script 0 = FetchOutcome.statusError c₁)
    (h₁ : script 1 = FetchOutcome.statusError c₂)
    (h₂ : script 2 = FetchOutcome.success (some d))
    (he : pypi_to_repodata_whl_entry m d = some e) :
    get_repodata_entry m script 3 = (some e, [1, 2], 3) ∧
    ([1, 2].sum = 3) ∧
    (∀ (m' : Mapping) (s' : Nat → FetchOutcome),
      (get_repodata_entry m' s' 3).2.2 ≤ 3) ∧
    (∀ (m'' : Mapping) (s'' : Nat → FetchOutcome),
      s'' 0 = FetchOutcome.otherError →
      get_repodata_entry m'' s'' 3 = (none, [], 1)) := by
  refine ⟨?_, rfl, fun m' s' => fetchGo_attempts_le m' s' 3 0 [], ?_⟩
  · simp [get_repodata_entry, fetchGo, h₀, h₁, h₂, he]
  · intro m'' s'' h
    simp [get_repodata_entry, fetchGo, h]

/-- C6: 1. from the initial state, the number of simultaneously active
resolutions never exceeds K; 2. after any completion, if requests remain
queued, the start of the next queued resolution is an enabled step. -/
theorem C6_concurrency_cap (K N : Nat) (_hK : 1 ≤ K) :
    (∀ s : CoordState, CoordReachable K N s → s.active ≤ K) ∧
    (∀ q a d : Nat, CoordReachable K N ⟨q + 1, a + 1, d⟩ →
      CoordStep K ⟨q + 1, a, d + 1⟩ ⟨q, a + 1, d + 1⟩) := by
  have hinv : ∀ s : CoordState, CoordReachable K N s → s.active ≤ K := by
    intro s hs
    induction hs with
    | refl => exact Nat.zero_le K
    | tail _ hstep ih =>
      cases hstep with
      | start q a d hK => exact hK
      | finish q a d => exact Nat.le_of_succ_le (by exact ih)
  refine ⟨hinv, ?_⟩
  intro q a d hreach
  have ha : a + 1 ≤ K := hinv _ hreach
  exact CoordStep.start q a (d + 1) (Nat.lt_of_succ_le ha)

/-- C6 witness: with K = 1 and N = 2, after one start the invariant bounds
the single active resolution by 1, and after its finish the second queued
request's start is enabled. -/
theorem C6_concurrency_cap_witness :
    (CoordState.active ⟨1, 1, 0⟩ ≤ 1) ∧
    CoordStep 1 ⟨1, 0, 1⟩ ⟨0, 1, 1⟩ := by
  have h := C6_concurrency_cap 1 2 (by decide)
  have hr : CoordReachable 1 2 ⟨1, 1, 0⟩ :=
    Relation.ReflTransGen.single (CoordStep.start 1 0 0 (by decide))
  exact ⟨h.1 _ hr, h.2 0 0 0 hr⟩

/-- C8: best-version selection returns a version whose leading
dot-separated integer key is maximal under numeric tuple comparison (no
strictly greater key exists in the set); non-numeric content after the
numeric run is ignored by the key; and on the set 1.0 / 1.9 / 1.10 the
selected best version is 1.10, not the lexical maximum 1.9. -/
theorem C8_best_version :
    (∀ (v : String) (vs : List String) (b : String),
      bestVersion (v :: vs) = some b →
      ∀ u ∈ v :: vs, tupLt (versionSortKey b) (versionSortKey u) = false) ∧
    bestVersion ["1.0", "1.9", "1.10"] = some "1.10" ∧
    versionSortKey "1.10" = [1, 10] ∧
    versionSortKey "1.2rc3" = versionSortKey "1.2" := by
  refine ⟨?_, rfl, rfl, rfl⟩
  intro v vs b hb u hu
  simp only [bestVersion, Option.some.injEq] at hb
  rw [← hb]
  exact best_foldl_max vs v u hu

/-- C8 witness: on the concrete set the selected version "1.10" has a key
not smaller than "1.9"'s. -/
theorem C8_best_version_witness :
    tupLt (versionSortKey "1.10") (versionSortKey "1.9") = false :=
  C8_best_version.1 "1.0" ["1.9", "1.10"] "1.10" rfl "1.9" (by simp)

theorem drop_length_takeWhile (p : Char → Bool) (l : List Char) :
    l.drop (l.takeWhile p).length = l.dropWhile p := by
  induction l with
  | nil => rfl
  | cons c cs ih =>
    by_cases h : p c <;>
      simp [List.takeWhile_cons, List.dropWhile_cons, h, ih]

/-- Modelled from the spec: a dependency specifier "marked as belonging to
an optional extra" — the environment-marker suffix (the part from the
semicolon on) mentions extra.  Used only to compare the spec's criterion
with the code's substring test. -/
def specMarkedAsExtra (dep : String) : Bool :=
  containsSeq "extra".data (dep.data.dropWhile (fun c => c ≠ ';'))

/-- The spec's requests example (§8): two dependencies and an interpreter
constraint. -/
def c9reqData : PypiData :=
  ⟨⟨"requests", "2.32.5", ["charset-normalizer<4,>=2", "idna<4,>=2.5"], some ">=3.8"⟩,
   [⟨"bdist_wheel", "requests-2.32.5-py3-none-any.whl", "u", 64928, "abc123"⟩]⟩

/-- C9 (amended): the depends list keeps exactly the declared specifiers
whose text does not contain the substring extra (a superset of the
extra-marked ones), each truncated at the first semicolon, trimmed, and
with its leading name token mapped while the rest of the specifier is
preserved; a synthetic python constraint is appended when declared; the
spec's requests example yields the 3-element depends list. -/
theorem C9_depends (m : Mapping) (d : PypiData) (e : WhlEntry)
    (he : pypi_to_repodata_whl_entry m d = some e) :
    e.depends =
      ((d.info.requires_dist.filter
          (fun dep => !(containsSeq "extra".data dep.data))).map
        (fun dep => map_dependency_name m (headBeforeSemi dep)))
      ++ pythonDeps d.info.requires_python ∧
    (∀ dep : String, (dep.data.takeWhile isNameChar).isEmpty = false →
      map_dependency_name m dep =
        map_package_name m (String.mk (dep.data.takeWhile isNameChar)) ++
          String.mk (dep.data.dropWhile isNameChar)) ∧
    (pypi_to_repodata_whl_entry [] c9reqData).map WhlEntry.depends =
      some ["charset-normalizer<4,>=2", "idna<4,>=2.5", "python >=3.8"] := by
  refine ⟨?_, ?_, rfl⟩
  · unfold pypi_to_repodata_whl_entry at he
    split at he
    · exact absurd he (by simp)
    · simp only [Option.some.injEq] at he
      rw [← he]
  · intro dep hdep
    simp only [map_dependency_name, hdep, Bool.false_eq_true, if_false]
    rw [drop_length_takeWhile]

/-- A package declaring one dependency that is NOT marked as belonging to
any extra, but whose name contains the substring extra. -/
def c9exData : PypiData :=
  ⟨⟨"demo", "1.0", ["extratool >=1.0"], none⟩,
   [⟨"bdist_wheel", "demo-1.0-py3-none-any.whl", "u", 1, "s"⟩]⟩

/-- C9 counterexample: the specifier extratool >=1.0 carries no extra
marker, yet the converter drops it (the code tests the substring extra
against the whole specifier text), so "exactly the specifiers not marked
as belonging to an optional extra are kept" is false. -/
theorem C9_counterexample :
    specMarkedAsExtra "extratool >=1.0" = false ∧
    c9exData.info.requires_dist = ["extratool >=1.0"] ∧
    (pypi_to_repodata_whl_entry [] c9exData).map WhlEntry.depends = some [] := by
  exact ⟨rfl, rfl, rfl⟩

/-- C10 (amended): every produced entry carries the constant fields
build = py3_none_any_0, build_number = 0, subdir = noarch,
noarch = python; the synthetic key is the string mappedName-version
followed by -py3_none_any_0; and two keys coincide exactly when the
joined strings mappedName-version coincide — which coincident (name,
version) pairs guarantee, but which hyphens can also produce from
distinct pairs. -/
theorem C10_constant_fields :
    (∀ (m : Mapping) (d : PypiData) (e : WhlEntry),
      pypi_to_repodata_whl_entry m d = some e →
      e.build = "py3_none_any_0" ∧ e.build_number = 0 ∧ e.subdir = "noarch" ∧
        e.noarch = "python") ∧
    (∀ n v : String, entryKey n v = (n ++ "-" ++ v) ++ "-py3_none_any_0") ∧
    (∀ n₁ v₁ n₂ v₂ : String,
      entryKey n₁ v₁ = entryKey n₂ v₂ ↔ n₁ ++ "-" ++ v₁ = n₂ ++ "-" ++ v₂) := by
  refine ⟨?_, fun n v => rfl, ?_⟩
  · intro m d e he
    unfold pypi_to_repodata_whl_entry at he
    split at he
    · exact absurd he (by simp)
    · simp only [Option.some.injEq] at he
      rw [← he]
      exact ⟨rfl, rfl, rfl, rfl⟩
  · intro n₁ v₁ n₂ v₂
    constructor
    · intro h
      rw [String.ext_iff] at h ⊢
      simp only [entryKey, String.data_append] at h
      simp only [String.data_append]
      exact List.append_left_injective _ h
    · intro h
      exact congrArg (fun s => s ++ "-py3_none_any_0") h

/-- C10 counterexample: the keys of the distinct (mappedName, version)
pairs (a-1, 2) and (a, 1-2) coincide, so "collide exactly when mapped name
and version coincide" fails in the only-if direction. -/
theorem C10_counterexample :
    entryKey "a-1" "2" = entryKey "a" "1-2" ∧
    ¬("a-1" = "a" ∧ "2" = "1-2") := by
  exact ⟨rfl, by decide⟩

/-- C2 witness: the amended last-write-wins statement at the concrete
colliding pair. -/
theorem C2_last_write_wins_witness :
    generate_repodata c2resolve [("foo_a", "1.0"), ("foo-a", "1.0")] =
      Except.ok ⟨"noarch", [], [], [], 1,
        [(entryKey
            (WhlEntry.name ⟨"u2", 3, "foo-a", "1.0", "py3_none_any_0", 0, [], "s2", 2,
              "noarch", "python"⟩) "1.0",
          ⟨"u2", 3, "foo-a", "1.0", "py3_none_any_0", 0, [], "s2", 2, "noarch",
            "python"⟩)]⟩ :=
  C2_last_write_wins c2resolve "foo_a" "1.0" "foo-a" "1.0"
    ⟨"u1", 3, "foo-a", "1.0", "py3_none_any_0", 0, [], "s1", 1, "noarch", "python"⟩
    ⟨"u2", 3, "foo-a", "1.0", "py3_none_any_0", 0, [], "s2", 2, "noarch", "python"⟩
    rfl rfl rfl

/-- C4 witness: the amended retry-classification at a concrete timeout-like
failure and a concrete 404-then-success script. -/
theorem C4_retry_classes_witness :
    get_repodata_entry [] (fun _ => FetchOutcome.otherError) 3 = (none, [], 1) ∧
    get_repodata_entry [] c4script 3 =
      (pypi_to_repodata_whl_entry [] requestsData, [1], 2) :=
  C4_retry_classes [] (fun _ => FetchOutcome.otherError) c4script 404 requestsData
    rfl rfl rfl

/-- A remote failing with HTTP 503 on the first two attempts, then serving
the requests 2.32.5 document. -/
def c5script : Nat → FetchOutcome := fun n =>
  if n ≤ 1 then FetchOutcome.statusError 503
  else FetchOutcome.success (some requestsData)

/-- The entry the converter produces from requestsData under the empty
mapping. -/
def requestsEntry : WhlEntry :=
  ⟨"https://files.pythonhosted.org/packages/.../requests-2.32.5-py3-none-any.whl", 3,
   "requests", "2.32.5", "py3_none_any_0", 0,
   ["charset-normalizer <4,>=2", "idna <4,>=2.5", "urllib3 <3,>=1.21.1",
    "certifi >=2017.4.17", "python >=3.8"],
   "abc123", 64928, "noarch", "python"⟩

/-- C5 witness: two 503 failures then success makes exactly 3 attempts with
backoff sleeps 1s and 2s and returns the entry. -/
theorem C5_backoff_witness :
    get_repodata_entry [] c5script 3 = (some requestsEntry, [1, 2], 3) :=
  (C5_backoff [] c5script 503 503 requestsData requestsEntry
    (Or.inr (by decide)) (Or.inr (by decide)) rfl rfl rfl rfl).1

/-- C7 witness: sortedness of a concrete successful document and the
exactly-one-entry count for a concrete one-request run. -/
theorem C7_sorted_and_counted_witness :
    List.Sorted keyLe [("foo-1.0-py3_none_any_0",
      (⟨"u1", 3, "foo", "1.0", "py3_none_any_0", 0, [], "s1", 1, "noarch",
        "python"⟩ : WhlEntry))] ∧
    (generate_repodata c7resolve [("Foo", "1.0")] =
      Except.ok ⟨"noarch", [], [], [], 1,
        sortByKey (collectResults ([("Foo", "1.0")].map
          (fun p => (p, c7resolve p.1 p.2)))).1⟩ ∧
    (sortByKey (collectResults ([("Foo", "1.0")].map
        (fun p => (p, c7resolve p.1 p.2)))).1).length = [("Foo", "1.0")].length) :=
  ⟨C7_sorted_and_counted.1 c7resolve [("Foo", "1.0")]
      ⟨"noarch", [], [], [], 1, [("foo-1.0-py3_none_any_0",
        ⟨"u1", 3, "foo", "1.0", "py3_none_any_0", 0, [], "s1", 1, "noarch",
          "python"⟩)]⟩ rfl,
   C7_sorted_and_counted.2 c7resolve [("Foo", "1.0")] (by decide) (by decide)⟩

/-- The entry the converter produces from the spec's requests example. -/
def c9reqEntry : WhlEntry :=
  ⟨"u", 3, "requests", "2.32.5", "py3_none_any_0", 0,
   ["charset-normalizer<4,>=2", "idna<4,>=2.5", "python >=3.8"],
   "abc123", 64928, "noarch", "python"⟩

/-- C9 witness: the depends decomposition at the spec's requests example. -/
theorem C9_depends_witness :
    WhlEntry.depends c9reqEntry =
      ((c9reqData.info.requires_dist.filter
          (fun dep => !(containsSeq "extra".data dep.data))).map
        (fun dep => map_dependency_name [] (headBeforeSemi dep)))
      ++ pythonDeps c9reqData.info.requires_python :=
  (C9_depends [] c9reqData c9reqEntry rfl).1

/-- C10 witness: the constant fields of the concrete requests-example
entry, plus the key equivalence at a concrete pair. -/
theorem C10_constant_fields_witness :
    (WhlEntry.build c9reqEntry = "py3_none_any_0" ∧
     WhlEntry.build_number c9reqEntry = 0 ∧
     WhlEntry.subdir c9reqEntry = "noarch" ∧
     WhlEntry.noarch c9reqEntry = "python") ∧
    (entryKey "a-1" "2" = entryKey "a" "1-2" ↔
      "a-1" ++ "-" ++ "2" = "a" ++ "-" ++ "1-2") :=
  ⟨C10_constant_fields.1 [] c9reqData c9reqEntry rfl,
   C10_constant_fields.2.2 "a-1" "2" "a" "1-2"⟩

/-- C1 witness: a concrete all-resolved run yields a document, so the mp
direction reports every request resolved. -/
theorem C1_fails_closed_witness :
    (c7resolve "Foo" "1.0").isSome = true :=
  (C1_fails_closed c7resolve [("Foo", "1.0")]).mp
    ⟨⟨"noarch", [], [], [], 1, [("foo-1.0-py3_none_any_0",
      ⟨"u1", 3, "foo", "1.0", "py3_none_any_0", 0, [], "s1", 1, "noarch",
        "python"⟩)]⟩, rfl⟩
    ("Foo", "1.0") (by simp)

/-- A remote failing with a timeout-class (non-status) transient error on
the first two attempts, then serving the requests 2.32.5 document. -/
def c5timeoutScript : Nat → FetchOutcome := fun n =>
  if n ≤ 1 then FetchOutcome.otherError
  else FetchOutcome.success (some requestsData)

/-- C5 counterexample: a resolver whose remote fetch fails twice with a
timeout-class transient error and would succeed on the third attempt does
NOT return Found with backoff 1s+2s: the code returns None after a single
attempt, with no backoff sleep at all — the generic except arm at
generate.py lines 198-200 gives up immediately, never reaching attempt 2
or 3. -/
theorem C5_counterexample :
    c5timeoutScript 0 = FetchOutcome.otherError ∧
    c5timeoutScript 1 = FetchOutcome.otherError ∧
    c5timeoutScript 2 = FetchOutcome.success (some requestsData) ∧
    pypi_to_repodata_whl_entry [] requestsData = some requestsEntry ∧
    get_repodata_entry [] c5timeoutScript 3 = (none, [], 1) := by
  exact ⟨rfl, rfl, rfl, rfl, rfl⟩
